import Mathlib

/-!
Verification of the reflection/metaclasses benchmark repository.

This file shallowly embeds the serialization and benchmarking code of
`implementation/comprehensive_benchmark.cpp`,
`implementation/working_reflection_demo.cpp`,
`reflection_metaclasses_paper/implementation/mock_reflection_demo.cpp`,
and the `DataModel` property-binding classes of
`implementation/benchmarks/binding_traditional.cpp` /
`reflection_metaclasses_paper/implementation/benchmarks/binding_reflection.cpp`.

Modelling conventions:
* C++ `double` values are modelled as exact rationals (`ℚ`); the programs
  never do arithmetic on the serialized doubles, they only format them,
  and every concrete value used in a theorem below is exactly
  representable both as a binary double and with at most six significant
  decimal digits, so the rational formatting model coincides with the
  C++ one at every evaluated point.
* `std::ostringstream` output is modelled by string concatenation.
* `operator<<(double)` with default stream flags is modelled by
  `fmtDefault` (the `%g`-with-precision-6 algorithm used by iostreams);
  after `std::fixed << std::setprecision(2)` it is modelled by
  `fmtFixed2`.  Rounding of a tie is not exercised by any theorem here.
* Wall-clock durations observed by the benchmark drivers are inputs of
  the environment; they are passed to the embedded drivers as functions
  from the run index to the measured time.
-/

/-- One decimal digit as a character. -/
def digitCh : Nat → Char
  | 0 => '0'
  | 1 => '1'
  | 2 => '2'
  | 3 => '3'
  | 4 => '4'
  | 5 => '5'
  | 6 => '6'
  | 7 => '7'
  | 8 => '8'
  | 9 => '9'
  | _ => '*'

/-- Decimal digit characters of `n`, most significant first, accumulated
onto `acc`.  The first argument is fuel; `natDigits` supplies enough. -/
def natDigitsCore : Nat → Nat → List Char → List Char
  | 0, _, acc => acc
  | fuel + 1, n, acc =>
    if n < 10 then digitCh n :: acc
    else natDigitsCore fuel (n / 10) (digitCh (n % 10) :: acc)

/-- Decimal digit characters of `n`, most significant first. -/
def natDigits (n : Nat) : List Char :=
  natDigitsCore (n + 1) n []

/-- Decimal rendering of a natural number, as printed by `operator<<`. -/
def natToString (n : Nat) : String :=
  ⟨natDigits n⟩

/-- Decimal rendering of an integer, as printed by `operator<<(int)`. -/
def intToString (i : Int) : String :=
  if i < 0 then "-" ++ natToString i.natAbs else natToString i.natAbs

/-- Round the nonnegative fraction `num / den` to the nearest natural
number, halves up: `⌊num/den + 1/2⌋ = (2*num + den) / (2*den)`.  C++
stream output rounds the binary double to nearest; no theorem below
evaluates a formatter at a tie, so the tie rule is never exercised. -/
def roundFrac (num den : Nat) : Nat :=
  (2 * num + den) / (2 * den)

/-- Model of `operator<<(double)` after `std::fixed << std::setprecision(2)`:
fixed-point notation with exactly two digits after the decimal point.
The argument's magnitude is `q.num.natAbs / q.den`; the printed value is
that magnitude times 100, rounded to the nearest integer `n`, rendered
as `n / 100` then `.` then the two low digits of `n`. -/
def fmtFixed2 (q : ℚ) : String :=
  let n : Nat := roundFrac (100 * q.num.natAbs) q.den
  let s : String :=
    natToString (n / 100) ++ "." ++ ⟨[digitCh (n / 10 % 10), digitCh (n % 10)]⟩
  if q < 0 then "-" ++ s else s

/-- Number of decimal digits of `n` (one digit for `0`). -/
def numDigits (n : Nat) : Nat :=
  (natDigits n).length

/-- Drop trailing `'0'` characters. -/
def stripZeros (l : List Char) : List Char :=
  (l.reverse.dropWhile (fun c => c = '0')).reverse

/-- For `q > 0`, the decimal exponent `e` with `10^e ≤ q < 10^(e+1)`. -/
def decExp (q : ℚ) : Int :=
  let n := q.num.natAbs
  let d := q.den
  let cand : Int := (numDigits n : Int) - (numDigits d : Int)
  if d * 10 ^ cand.toNat ≤ n * 10 ^ (-cand).toNat then cand else cand - 1

/-- The six significant decimal digits of `q > 0` together with its decimal
exponent: returns `(m, e)` with `m = round (q / 10^(e-5)) ∈ [10^5, 10^6]`,
then the carry case `m = 10^6` renormalized to `(10^5, e+1)`. -/
def sixSigDigits (q : ℚ) : Nat × Int :=
  let num := q.num.natAbs
  let den := q.den
  let e := decExp q
  let m : Nat :=
    if e ≤ 5 then roundFrac (num * 10 ^ (5 - e).toNat) den
    else roundFrac num (den * 10 ^ (e - 5).toNat)
  if m = 1000000 then (100000, e + 1) else (m, e)

/-- Model of `operator<<(double)` with default stream flags for `q > 0`:
the `%g` algorithm with precision 6 (fixed or scientific notation,
trailing zeros removed). -/
def fmtDefaultPos (q : ℚ) : List Char :=
  let me := sixSigDigits q
  let ds := natDigits me.1
  let e := me.2
  if -4 ≤ e ∧ e < 6 then
    if 0 ≤ e then
      let ip := ds.take (e.toNat + 1)
      let fp := stripZeros (ds.drop (e.toNat + 1))
      ip ++ (if fp = [] then [] else '.' :: fp)
    else
      let fp := stripZeros (List.replicate ((-e).toNat - 1) '0' ++ ds)
      '0' :: '.' :: fp
  else
    let fp := stripZeros ds.tail
    let mant := ds.take 1 ++ (if fp = [] then [] else '.' :: fp)
    let ea := e.natAbs
    let ed := if ea < 10 then ['0', digitCh ea] else natDigits ea
    mant ++ 'e' :: (if e < 0 then '-' else '+') :: ed

/-- Model of `operator<<(double)` with default stream flags. -/
def fmtDefault (q : ℚ) : String :=
  if q = 0 then "0"
  else if q < 0 then "-" ++ ⟨fmtDefaultPos (-q)⟩
  else ⟨fmtDefaultPos q⟩

/-- Comma-join a list of already-rendered pieces: the output of the C++
loops `for (i...) { if (i > 0) json << ","; json << piece(i); }`. -/
def joinComma : List String → String
  | [] => ""
  | [x] => x
  | x :: y :: t => x ++ "," ++ joinComma (y :: t)

/-- Comma-prefixed concatenation: what the serialization loops append
after the first element. -/
def prefixedCat : List String → String
  | [] => ""
  | x :: t => "," ++ x ++ prefixedCat t

/-- A brace-wrapped, comma-separated `"name":value` object, used to state
which name/value pairs a serializer emits and in which order. -/
def mkObject (fields : List (String × String)) : String :=
  "\x7b" ++ joinComma (fields.map (fun kv => "\"" ++ kv.1 ++ "\":" ++ kv.2)) ++ "\x7d"

/-- A `Text` value as rendered by every serializer here: wrapped in
quotation marks, no escaping. -/
def quoted (s : String) : String := "\"" ++ s ++ "\""

/-- Index of the first occurrence of `pat` in `hay`, if any. -/
def firstPos (hay pat : List Char) : Option Nat :=
  match hay with
  | [] => if pat = [] then some 0 else none
  | _ :: t => if pat.isPrefixOf hay then some 0 else (firstPos t pat).map (· + 1)

namespace comprehensive_benchmark

/-- C++ `struct Person` of `implementation/comprehensive_benchmark.cpp`. -/
structure Person where
  name : String
  age : Int
  salary : ℚ
  department : String
  is_active : Bool

/-- C++ `struct Product` of `implementation/comprehensive_benchmark.cpp`. -/
structure Product where
  name : String
  price : ℚ
  quantity : Int
  category : String
  rating : ℚ

/-- C++ `struct Order` of `implementation/comprehensive_benchmark.cpp`. -/
structure Order where
  order_id : Int
  customer_name : String
  items : List Product
  total_amount : ℚ
  order_date : String

/-- C++ `mock_meta::get_member_names<Person>()`. -/
def get_member_names_Person : List String :=
  ["name", "age", "salary", "department", "is_active"]

/-- C++ `mock_meta::get_member_names<Product>()`. -/
def get_member_names_Product : List String :=
  ["name", "price", "quantity", "category", "rating"]

/-- C++ `mock_meta::get_member_names<Order>()`. -/
def get_member_names_Order : List String :=
  ["order_id", "customer_name", "items", "total_amount", "order_date"]

/-- C++ `enhanced_serialization::ReflectionSerializer<Person>::serialize`.
`salary` is printed after `std::fixed << std::setprecision(2)`. -/
def reflection_serialize_Person (obj : Person) : String :=
  "\x7b\"name\":\"" ++ obj.name ++ "\"," ++
  "\"age\":" ++ intToString obj.age ++ "," ++
  "\"salary\":" ++ fmtFixed2 obj.salary ++ "," ++
  "\"department\":\"" ++ obj.department ++ "\"," ++
  "\"is_active\":" ++ (if obj.is_active then "true" else "false") ++ "\x7d"

/-- C++ `enhanced_serialization::ReflectionSerializer<Product>::serialize`.
`std::fixed << std::setprecision(2)` is applied while printing `price`
and the stream flags persist, so `rating` is printed fixed-2 as well. -/
def reflection_serialize_Product (obj : Product) : String :=
  "\x7b\"name\":\"" ++ obj.name ++ "\"," ++
  "\"price\":" ++ fmtFixed2 obj.price ++ "," ++
  "\"quantity\":" ++ intToString obj.quantity ++ "," ++
  "\"category\":\"" ++ obj.category ++ "\"," ++
  "\"rating\":" ++ fmtFixed2 obj.rating ++ "\x7d"

/-- The item loop of `ReflectionSerializer<Order>::serialize`:
`for (i...) { if (i > 0) json << ","; json << serialize(items[i]); }`,
modelled with the `(accumulated, i > 0)` loop state. -/
def order_items_loop (items : List Product) : String :=
  (items.foldl
    (fun acc p =>
      (acc.1 ++ (if acc.2 then "," else "") ++ reflection_serialize_Product p, true))
    ("", false)).1

/-- C++ `enhanced_serialization::ReflectionSerializer<Order>::serialize`.
Its fresh `ostringstream` never receives `std::fixed`, so
`total_amount` is printed with default (`%g`-style) formatting; the
fields are emitted in the order `order_id`, `customer_name`,
`total_amount`, `order_date`, `items`. -/
def reflection_serialize_Order (obj : Order) : String :=
  "\x7b\"order_id\":" ++ intToString obj.order_id ++ "," ++
  "\"customer_name\":\"" ++ obj.customer_name ++ "\"," ++
  "\"total_amount\":" ++ fmtDefault obj.total_amount ++ "," ++
  "\"order_date\":\"" ++ obj.order_date ++ "\"," ++
  "\"items\":[" ++ order_items_loop obj.items ++ "]\x7d"

/-- C++ `advanced_benchmarks::manual_serialize<Person>`: identical shape to
the reflection serializer but `salary` is printed with default stream
flags (no `std::fixed << std::setprecision(2)`). -/
def manual_serialize_Person (obj : Person) : String :=
  "\x7b\"name\":\"" ++ obj.name ++ "\"," ++
  "\"age\":" ++ intToString obj.age ++ "," ++
  "\"salary\":" ++ fmtDefault obj.salary ++ "," ++
  "\"department\":\"" ++ obj.department ++ "\"," ++
  "\"is_active\":" ++ (if obj.is_active then "true" else "false") ++ "\x7d"

/-- C++ `advanced_benchmarks::manual_serialize<Product>`: `price` and
`rating` are printed with default stream flags. -/
def manual_serialize_Product (obj : Product) : String :=
  "\x7b\"name\":\"" ++ obj.name ++ "\"," ++
  "\"price\":" ++ fmtDefault obj.price ++ "," ++
  "\"quantity\":" ++ intToString obj.quantity ++ "," ++
  "\"category\":\"" ++ obj.category ++ "\"," ++
  "\"rating\":" ++ fmtDefault obj.rating ++ "\x7d"

/-- C++ `advanced_benchmarks::BenchmarkResult`.  The C++ struct stores
`std_dev_ms = sqrt(variance)`; a real square root is not computable, so
the embedding stores the exactly-computed `variance` (the square of the
standard deviation) and theorems speak about `Real.sqrt` of it. -/
structure BenchmarkResult where
  min_time_ms : ℚ
  max_time_ms : ℚ
  avg_time_ms : ℚ
  variance_ms : ℚ
  iterations : Nat
  data_size : Nat
deriving DecidableEq

namespace advanced_benchmarks

/-- C++ `AdvancedBenchmark` holds `std::vector<double> measurements_`,
modelled as the list of recorded measurements in insertion order. -/
abbrev AdvancedBenchmark := List ℚ

/-- C++ `AdvancedBenchmark::clear()`. -/
def clear (_ : AdvancedBenchmark) : AdvancedBenchmark := []

/-- C++ `AdvancedBenchmark::add_measurement(double)`. -/
def add_measurement (b : AdvancedBenchmark) (time_ms : ℚ) : AdvancedBenchmark :=
  b ++ [time_ms]

/-- C++ `AdvancedBenchmark::get_result(size_t)`: zero result on an empty
measurement vector, otherwise `min_element` / `max_element` /
`accumulate` and the population-variance loop. -/
def get_result (measurements : AdvancedBenchmark) (data_size : Nat) : BenchmarkResult :=
  match measurements with
  | [] => ⟨0, 0, 0, 0, 0, data_size⟩
  | m :: rest =>
    let mn := rest.foldl min m
    let mx := rest.foldl max m
    let sum := (m :: rest).foldl (· + ·) 0
    let avg := sum / ((m :: rest).length : ℚ)
    let variance :=
      ((m :: rest).foldl (fun acc t => acc + (t - avg) * (t - avg)) 0) /
        ((m :: rest).length : ℚ)
    ⟨mn, mx, avg, variance, (m :: rest).length, data_size⟩

/-- The overhead expression of
`advanced_benchmarks::benchmark_serialization_comprehensive` (and,
identically, of `benchmarks::benchmark_serialization` in
`working_reflection_demo.cpp`):
`(manual_avg > 0) ? (refl_avg / manual_avg - 1) * 100 : 0`. -/
def guarded_overhead (refl_avg manual_avg : ℚ) : ℚ :=
  if 0 < manual_avg then (refl_avg / manual_avg - 1) * 100 else 0

/-- What one call of `benchmark_serialization_comprehensive` produces. -/
structure ComprehensiveOutcome where
  reflection_result : BenchmarkResult
  manual_result : BenchmarkResult
  overhead : ℚ
deriving DecidableEq

/-- C++ `advanced_benchmarks::benchmark_serialization_comprehensive`.
The wall-clock durations of the two timed sections are environment
inputs, passed as functions `reflTime`, `manualTime` of the run index;
the loop `for (run = 0; run < runs; ++run)` records one measurement per
timer per run, then both results and the guarded overhead are computed.
No input validation of any kind is performed on `runs`. -/
def benchmark_serialization_comprehensive
    (reflTime manualTime : Nat → ℚ) (objects_size : Nat) (runs : Int) :
    ComprehensiveOutcome :=
  let reflection_bench := (List.range runs.toNat).map reflTime
  let manual_bench := (List.range runs.toNat).map manualTime
  let reflection_result := get_result reflection_bench objects_size
  let manual_result := get_result manual_bench objects_size
  ⟨reflection_result, manual_result,
    guarded_overhead reflection_result.avg_time_ms manual_result.avg_time_ms⟩

end advanced_benchmarks

namespace working_reflection_demo

/-- C++ `struct Person` of `implementation/working_reflection_demo.cpp`
(also the `Person` of `mock_reflection_demo.cpp`, which is identical). -/
structure Person where
  name : String
  age : Int
  salary : ℚ

/-- C++ `struct Company` of `implementation/working_reflection_demo.cpp`
(also the `Company` of `mock_reflection_demo.cpp`). -/
structure Company where
  name : String
  employees : List Person
  revenue : ℚ

/-- C++ `mock_serialization::ReflectionSerializer<Person>::serialize` of
`working_reflection_demo.cpp`: all fields use default stream flags. -/
def serialize_Person (obj : Person) : String :=
  "\x7b\"name\":\"" ++ obj.name ++ "\"," ++
  "\"age\":" ++ intToString obj.age ++ "," ++
  "\"salary\":" ++ fmtDefault obj.salary ++ "\x7d"

/-- The employee loop of `ReflectionSerializer<Company>::serialize`. -/
def company_employees_loop (employees : List Person) : String :=
  (employees.foldl
    (fun acc p => (acc.1 ++ (if acc.2 then "," else "") ++ serialize_Person p, true))
    ("", false)).1

/-- C++ `mock_serialization::ReflectionSerializer<Company>::serialize` of
`working_reflection_demo.cpp`: fields in order `name`, `revenue`,
`employees`. -/
def serialize_Company (obj : Company) : String :=
  "\x7b\"name\":\"" ++ obj.name ++ "\"," ++
  "\"revenue\":" ++ fmtDefault obj.revenue ++ "," ++
  "\"employees\":[" ++ company_employees_loop obj.employees ++ "]\x7d"

/-- The overhead computation at `working_reflection_demo.cpp:174`:
`(manual_time > 0) ? ((reflection_time / manual_time - 1.0) * 100.0) : 0.0`. -/
def overhead (reflection_time manual_time : ℚ) : ℚ :=
  if 0 < manual_time then (reflection_time / manual_time - 1) * 100 else 0

end working_reflection_demo

namespace mock_reflection_demo

/-- The compile-time type universe over which
`mock_serialization::ReflectionSerializer<T>` of
`mock_reflection_demo.cpp` dispatches with `if constexpr`: `Person`,
`Company`, or any other type (which matches no branch). -/
inductive MockType where
  | person
  | company
  | unknown
deriving DecidableEq

/-- A value of one of those types. -/
inductive MockValue where
  | person (p : working_reflection_demo.Person)
  | company (c : working_reflection_demo.Company)
  | unknown

/-- The type of a value. -/
def typeOf : MockValue → MockType
  | .person _ => .person
  | .company _ => .company
  | .unknown => .unknown

/-- C++ `mock_meta::get_member_names<T>()` of `mock_reflection_demo.cpp`:
the registered member-name list, empty for unregistered types. -/
def get_member_names : MockType → List String
  | .person => ["name", "age", "salary"]
  | .company => ["name", "employees", "revenue"]
  | .unknown => []

/-- The employee loop inside the `Company` branch of `serialize`; the
recursive call serializes each employee as a `Person`. -/
def employees_loop (employees : List working_reflection_demo.Person) : String :=
  (employees.foldl
    (fun acc p =>
      (acc.1 ++ (if acc.2 then "," else "") ++
        ("\x7b\"name\":\"" ++ p.name ++ "\"," ++
         "\"age\":" ++ intToString p.age ++ "," ++
         "\"salary\":" ++ fmtDefault p.salary ++ "\x7d"), true))
    ("", false)).1

/-- C++ `mock_serialization::ReflectionSerializer<T>::serialize` of
`mock_reflection_demo.cpp`: emits `{`, then the `if constexpr` branch
for `T` (nothing when `T` is neither `Person` nor `Company`), then `}`. -/
def serialize (v : MockValue) : String :=
  "\x7b" ++
  (match v with
   | .person p =>
     "\"name\":\"" ++ p.name ++ "\"," ++
     "\"age\":" ++ intToString p.age ++ "," ++
     "\"salary\":" ++ fmtDefault p.salary
   | .company c =>
     "\"name\":\"" ++ c.name ++ "\"," ++
     "\"revenue\":" ++ fmtDefault c.revenue ++ "," ++
     "\"employees\":[" ++ employees_loop c.employees ++ "]"
   | .unknown => "") ++
  "\x7d"

/-- The overhead computation at `mock_reflection_demo.cpp:165`:
`(reflection_time / manual_time - 1.0) * 100.0`, with no guard against
`manual_time == 0`.  (In C++ the division of a positive double by zero
yields infinity and of zero by zero NaN; rational division by zero
yields 0 here.  Under either semantics the result differs from the 0
the specification requires.) -/
def overhead (reflection_time manual_time : ℚ) : ℚ :=
  (reflection_time / manual_time - 1) * 100

end mock_reflection_demo

namespace binding

/-- The `DataModel` class of
`implementation/benchmarks/binding_traditional.cpp` and (identically,
up to public fields) of
`reflection_metaclasses_paper/implementation/benchmarks/binding_reflection.cpp`.
Callbacks are opaque; the lists hold callback identifiers in
registration order. -/
structure DataModel where
  name : String
  value : Int
  active : Bool
  name_changed_callbacks : List Nat
  value_changed_callbacks : List Nat
  active_changed_callbacks : List Nat
deriving DecidableEq

/-- C++ `DataModel::set_name`: on `name_ != new_name`, store the new value
and invoke every registered name callback in order; otherwise do
nothing.  Returns the new state and the identifiers of the callbacks
invoked, in invocation order. -/
def set_name (m : DataModel) (new_name : String) : DataModel × List Nat :=
  if m.name ≠ new_name then
    ({ m with name := new_name }, m.name_changed_callbacks)
  else (m, [])

/-- C++ `DataModel::set_value`. -/
def set_value (m : DataModel) (new_value : Int) : DataModel × List Nat :=
  if m.value ≠ new_value then
    ({ m with value := new_value }, m.value_changed_callbacks)
  else (m, [])

/-- C++ `DataModel::set_active`. -/
def set_active (m : DataModel) (new_active : Bool) : DataModel × List Nat :=
  if m.active ≠ new_active then
    ({ m with active := new_active }, m.active_changed_callbacks)
  else (m, [])

/-- C++ `DataModel::bind_name_changed`: `push_back` onto the callback list. -/
def bind_name_changed (m : DataModel) (callback : Nat) : DataModel :=
  { m with name_changed_callbacks := m.name_changed_callbacks ++ [callback] }

/-- C++ `DataModel::bind_value_changed`. -/
def bind_value_changed (m : DataModel) (callback : Nat) : DataModel :=
  { m with value_changed_callbacks := m.value_changed_callbacks ++ [callback] }

/-- C++ `DataModel::bind_active_changed`. -/
def bind_active_changed (m : DataModel) (callback : Nat) : DataModel :=
  { m with active_changed_callbacks := m.active_changed_callbacks ++ [callback] }

end binding

/-! ## Sanity checks of the formatting model -/

/-- Sanity check: integer rendering matches `operator<<`. -/
theorem natToString_evals : natToString 75000 = "75000" ∧ intToString (-42) = "-42" :=
  ⟨by decide, by decide⟩

/-- Sanity check: the fixed-2 model matches
`std::fixed << std::setprecision(2)` output on sample values. -/
theorem fmtFixed2_evals :
    fmtFixed2 75000 = "75000.00" ∧ fmtFixed2 (mkRat 41 4) = "10.25" :=
  ⟨by decide, by decide⟩

/-- Sanity check: the default-format model matches the C++ `%g`-style
default `operator<<(double)` output on sample values, including the
scientific-notation and sub-unit ranges. -/
theorem fmtDefault_evals :
    fmtDefault 75000 = "75000" ∧ fmtDefault 1 = "1" ∧
      fmtDefault (mkRat 41 4) = "10.25" ∧ fmtDefault (mkRat (-1) 8) = "-0.125" ∧
      fmtDefault (mkRat 1 8192) = "0.00012207" ∧
      fmtDefault 1048576 = "1.04858e+06" ∧ fmtDefault 0 = "0" :=
  ⟨by decide, by decide, by decide, by decide, by decide, by decide, by decide⟩

/-! ## Helper lemmas -/

theorem foldl_min_le_init {α : Type} [LinearOrder α] :
    ∀ (l : List α) (a : α), l.foldl min a ≤ a := by
  intro l
  induction l with
  | nil => intro a; exact le_refl a
  | cons x t ih =>
    intro a
    exact le_trans (ih (min a x)) (min_le_left a x)

theorem foldl_min_le_mem {α : Type} [LinearOrder α] :
    ∀ (l : List α) (a : α), ∀ x ∈ l, l.foldl min a ≤ x := by
  intro l
  induction l with
  | nil => intro a x hx; cases hx
  | cons y t ih =>
    intro a x hx
    rcases List.mem_cons.mp hx with h | h
    · subst h
      exact le_trans (foldl_min_le_init t (min a x)) (min_le_right a x)
    · exact ih (min a y) x h

theorem foldl_min_mem {α : Type} [LinearOrder α] :
    ∀ (l : List α) (a : α), l.foldl min a = a ∨ l.foldl min a ∈ l := by
  intro l
  induction l with
  | nil => intro a; exact Or.inl rfl
  | cons x t ih =>
    intro a
    rcases ih (min a x) with h | h
    · rcases min_cases a x with ⟨hm, _⟩ | ⟨hm, _⟩
      · exact Or.inl (by rw [List.foldl_cons, h, hm])
      · exact Or.inr (by rw [List.foldl_cons, h, hm]; exact List.mem_cons_self x t)
    · exact Or.inr (List.mem_cons_of_mem x h)

theorem foldl_max_le_init {α : Type} [LinearOrder α] :
    ∀ (l : List α) (a : α), a ≤ l.foldl max a := by
  intro l
  induction l with
  | nil => intro a; exact le_refl a
  | cons x t ih =>
    intro a
    exact le_trans (le_max_left a x) (ih (max a x))

theorem foldl_max_ge_mem {α : Type} [LinearOrder α] :
    ∀ (l : List α) (a : α), ∀ x ∈ l, x ≤ l.foldl max a := by
  intro l
  induction l with
  | nil => intro a x hx; cases hx
  | cons y t ih =>
    intro a x hx
    rcases List.mem_cons.mp hx with h | h
    · subst h
      exact le_trans (le_max_right a x) (foldl_max_le_init t (max a x))
    · exact ih (max a y) x h

theorem foldl_max_mem {α : Type} [LinearOrder α] :
    ∀ (l : List α) (a : α), l.foldl max a = a ∨ l.foldl max a ∈ l := by
  intro l
  induction l with
  | nil => intro a; exact Or.inl rfl
  | cons x t ih =>
    intro a
    rcases ih (max a x) with h | h
    · rcases max_cases a x with ⟨hm, _⟩ | ⟨hm, _⟩
      · exact Or.inl (by rw [List.foldl_cons, h, hm])
      · exact Or.inr (by rw [List.foldl_cons, h, hm]; exact List.mem_cons_self x t)
    · exact Or.inr (List.mem_cons_of_mem x h)

theorem foldl_add_eq_sum (l : List ℚ) : ∀ a : ℚ, l.foldl (· + ·) a = a + l.sum := by
  induction l with
  | nil => intro a; simp
  | cons x t ih => intro a; simp [ih, add_assoc]

theorem foldl_add_map_eq_sum (f : ℚ → ℚ) (l : List ℚ) :
    ∀ a : ℚ, l.foldl (fun acc t => acc + f t) a = a + (l.map f).sum := by
  induction l with
  | nil => intro a; simp
  | cons x t ih => intro a; simp [ih, add_assoc]

theorem joinComma_cons (x : String) :
    ∀ l : List String, joinComma (x :: l) = x ++ prefixedCat l := by
  intro l
  induction l generalizing x with
  | nil => simp [joinComma, prefixedCat]
  | cons y t ih =>
    show joinComma (x :: y :: t) = _
    rw [joinComma, ih y, prefixedCat]
    apply String.ext
    simp [List.append_assoc]

theorem serialize_loop_eq {α : Type} (f : α → String) :
    ∀ (t : List α) (s : String),
      (t.foldl (fun acc p => (acc.1 ++ (if acc.2 then "," else "") ++ f p, true))
        (s, true)).1 = s ++ prefixedCat (t.map f) := by
  intro t
  induction t with
  | nil => intro s; simp [prefixedCat]
  | cons x r ih =>
    intro s
    rw [List.foldl_cons]
    show (r.foldl _ (s ++ "," ++ f x, true)).1 = _
    rw [ih (s ++ "," ++ f x), List.map_cons, prefixedCat]
    apply String.ext
    simp [List.append_assoc]

theorem serialize_loop_eq_joinComma {α : Type} (f : α → String) (l : List α) :
    (l.foldl (fun acc p => (acc.1 ++ (if acc.2 then "," else "") ++ f p, true))
      ("", false)).1 = joinComma (l.map f) := by
  cases l with
  | nil => rfl
  | cons x t =>
    rw [List.foldl_cons]
    show (t.foldl _ ("" ++ "" ++ f x, true)).1 = _
    rw [serialize_loop_eq f t ("" ++ "" ++ f x), List.map_cons, joinComma_cons]
    apply String.ext
    simp [List.append_assoc]

theorem prefixedCat_length :
    ∀ l : List String, (prefixedCat l).length = (l.map String.length).sum + l.length := by
  intro l
  induction l with
  | nil => rfl
  | cons x t ih =>
    rw [prefixedCat]
    simp [ih]
    have hc : (",").length = 1 := rfl
    rw [hc]
    omega

theorem joinComma_length :
    ∀ l : List String, l ≠ [] →
      (joinComma l).length = (l.map String.length).sum + (l.length - 1) := by
  intro l
  induction l with
  | nil => intro h; exact absurd rfl h
  | cons x t ih =>
    intro _
    cases t with
    | nil => simp [joinComma]
    | cons y r =>
      rw [joinComma, String.length_append, String.length_append,
        ih (by simp)]
      simp only [List.map_cons, List.sum_cons, List.length_cons]
      have hc : (",").length = 1 := rfl
      rw [hc]
      omega

theorem digitCh_bne_dot (k : Nat) : (digitCh k != '.') = true := by
  unfold digitCh
  split <;> decide

theorem digitCh_isDigit (k : Nat) (h : k < 10) : (digitCh k).isDigit = true := by
  interval_cases k <;> decide

theorem rev_takeWhile_two (X : String) (c₁ c₂ : Char)
    (h₁ : (c₁ != '.') = true) (h₂ : (c₂ != '.') = true) :
    ((X ++ "." ++ ⟨[c₁, c₂]⟩).data.reverse.takeWhile (fun c => c != '.')) = [c₂, c₁] := by
  simp [List.takeWhile_cons, h₁, h₂]

/-! ## Claims C4, C5, C8, C9, C10 -/

/-- Claim C4, counterexample: the comparison routine
`benchmarks::benchmark_serialization` of `mock_reflection_demo.cpp`
computes `(reflection_time / manual_time - 1) * 100` with no guard, so
with `manual_time = 0` its overhead is not `0` (in the rational model it
is `-100`; with IEEE doubles it is infinite or NaN — under neither
semantics is it the `0` the claim requires of every comparison
routine). -/
theorem c4_mock_overhead_not_zero : mock_reflection_demo.overhead 5 0 ≠ 0 := by
  norm_num [mock_reflection_demo.overhead]

/-- Claim C4, amended: in `benchmark_serialization_comprehensive`
(`comprehensive_benchmark.cpp`) and in `benchmark_serialization`
(`working_reflection_demo.cpp`) the overhead is guarded: for a
nonnegative specialized mean it equals
`(generic.mean / specialized.mean - 1) * 100` when the mean is nonzero
and `0` when it is zero; the third comparison routine
(`mock_reflection_demo.cpp`) is unguarded and violates the zero case. -/
theorem c4_guarded_overhead_cases (r m : ℚ) (h : 0 ≤ m) :
    advanced_benchmarks.guarded_overhead r m
        = (if m = 0 then 0 else (r / m - 1) * 100) ∧
      working_reflection_demo.overhead r m
        = (if m = 0 then 0 else (r / m - 1) * 100) := by
  have key : (if 0 < m then (r / m - 1) * 100 else 0)
      = (if m = 0 then 0 else (r / m - 1) * 100) := by
    by_cases hm : m = 0
    · subst hm; simp
    · have hpos : 0 < m := lt_of_le_of_ne h (Ne.symm hm)
      rw [if_pos hpos, if_neg hm]
  exact ⟨key, key⟩

/-- Claim C4 witness: the guarded overhead at generic mean 3 ms and
specialized mean 2 ms. -/
theorem c4_witness :
    (0 : ℚ) ≤ 2 ∧
      (advanced_benchmarks.guarded_overhead 3 2
          = (if (2 : ℚ) = 0 then 0 else ((3 : ℚ) / 2 - 1) * 100) ∧
        working_reflection_demo.overhead 3 2
          = (if (2 : ℚ) = 0 then 0 else ((3 : ℚ) / 2 - 1) * 100)) :=
  ⟨by norm_num, c4_guarded_overhead_cases 3 2 (by norm_num)⟩

/-- Claim C5, counterexample: calling
`benchmark_serialization_comprehensive` with `runs = 0` does not fail —
the source contains no validation and no `InvalidConfigurationError`
(no `throw` exists anywhere in the repository) — it completes and
produces zero `BenchmarkResult`s with `iterations = 0`. -/
theorem c5_zero_runs_completes :
    advanced_benchmarks.benchmark_serialization_comprehensive
        (fun _ => 1) (fun _ => 1) 100 0 =
      ⟨⟨0, 0, 0, 0, 0, 100⟩, ⟨0, 0, 0, 0, 0, 100⟩, 0⟩ := by
  decide

/-- Claim C5, amended: the harness performs no `trial_count`
validation; for every `runs ≤ 0` the comprehensive benchmark completes
normally, records no measurements, and returns results whose statistics
and iteration counts are all zero, with overhead `0`. -/
theorem c5_nonpositive_runs_zero_result
    (reflTime manualTime : Nat → ℚ) (ds : Nat) (runs : Int) (h : runs ≤ 0) :
    advanced_benchmarks.benchmark_serialization_comprehensive
        reflTime manualTime ds runs =
      ⟨⟨0, 0, 0, 0, 0, ds⟩, ⟨0, 0, 0, 0, 0, ds⟩, 0⟩ := by
  unfold advanced_benchmarks.benchmark_serialization_comprehensive
  rw [Int.toNat_of_nonpos h]
  simp [advanced_benchmarks.get_result, advanced_benchmarks.guarded_overhead]

/-- Claim C5 witness: a negative trial count also completes with the
zero result. -/
theorem c5_witness :
    (-3 : Int) ≤ 0 ∧
      advanced_benchmarks.benchmark_serialization_comprehensive
          (fun _ => 1) (fun _ => 2) 7 (-3) =
        ⟨⟨0, 0, 0, 0, 0, 7⟩, ⟨0, 0, 0, 0, 0, 7⟩, 0⟩ :=
  ⟨by norm_num, c5_nonpositive_runs_zero_result (fun _ => 1) (fun _ => 2) 7 (-3) (by norm_num)⟩

/-- Claim C8, confirmed: serializing a value of a record type with zero
registered fields (a type matching no `if constexpr` branch, whose
`get_member_names` list is empty) yields exactly the two-character
string `{}`. -/
theorem c8_zero_fields_empty_object (v : mock_reflection_demo.MockValue)
    (h : mock_reflection_demo.get_member_names (mock_reflection_demo.typeOf v) = []) :
    mock_reflection_demo.serialize v = "\x7b\x7d" := by
  cases v with
  | person p =>
    simp [mock_reflection_demo.typeOf, mock_reflection_demo.get_member_names] at h
  | company c =>
    simp [mock_reflection_demo.typeOf, mock_reflection_demo.get_member_names] at h
  | unknown => rfl

/-- Claim C8 witness: the unregistered type has no members and
serializes to `{}`. -/
theorem c8_witness :
    mock_reflection_demo.get_member_names
        (mock_reflection_demo.typeOf mock_reflection_demo.MockValue.unknown) = [] ∧
      mock_reflection_demo.serialize mock_reflection_demo.MockValue.unknown = "\x7b\x7d" :=
  ⟨rfl, c8_zero_fields_empty_object mock_reflection_demo.MockValue.unknown rfl⟩

/-- Claim C9, confirmed: `get_result` on an empty measurement vector
(including right after `clear()`) raises nothing and returns a result
whose min, max, mean and standard deviation are all `0.0`, whose
iteration count is `0`, and whose `data_size` is the caller's argument
passed through unchanged. -/
theorem c9_empty_measurements_zero_result
    (b : advanced_benchmarks.AdvancedBenchmark) (ds : Nat) :
    advanced_benchmarks.get_result [] ds = ⟨0, 0, 0, 0, 0, ds⟩ ∧
      advanced_benchmarks.get_result (advanced_benchmarks.clear b) ds
        = ⟨0, 0, 0, 0, 0, ds⟩ :=
  ⟨rfl, rfl⟩

/-- Claim C10, confirmed: each `DataModel` setter stores and notifies
exactly when the new value differs from the stored one — the callbacks
invoked are then precisely the registered ones in registration order
(a callback bound with `bind_name_changed` is appended and fires last)
— and an equal value leaves the state unchanged and notifies nobody. -/
theorem c10_setters_notify_iff_changed
    (m : binding.DataModel) (s : String) (i : Int) (b : Bool) (c : Nat) :
    binding.set_name m s =
      (if s = m.name then (m, ([] : List Nat))
       else ({ m with name := s }, m.name_changed_callbacks)) ∧
    binding.set_value m i =
      (if i = m.value then (m, ([] : List Nat))
       else ({ m with value := i }, m.value_changed_callbacks)) ∧
    binding.set_active m b =
      (if b = m.active then (m, ([] : List Nat))
       else ({ m with active := b }, m.active_changed_callbacks)) ∧
    (binding.set_name (binding.bind_name_changed m c) s).2 =
      (if s = m.name then [] else m.name_changed_callbacks ++ [c]) := by
  refine ⟨?_, ?_, ?_, ?_⟩
  · unfold binding.set_name
    by_cases h : s = m.name
    · simp [h]
    · simp [h, Ne.symm h]
  · unfold binding.set_value
    by_cases h : i = m.value
    · simp [h]
    · simp [h, Ne.symm h]
  · unfold binding.set_active
    by_cases h : b = m.active
    · simp [h]
    · simp [h, Ne.symm h]
  · unfold binding.set_name binding.bind_name_changed
    by_cases h : s = m.name
    · simp [h]
    · simp [h, Ne.symm h]

/-! ## Claim C3 -/

/-- Claim C3, confirmed: for every non-empty measurement list the
`BenchmarkResult` of `AdvancedBenchmark::get_result` has `min` equal to
the smallest trial, `max` equal to the largest, `mean = sum / count`,
and a standard deviation equal to the square root of the population
variance `sum((t - mean)^2) / count` (the embedded result stores that
variance exactly; its square root is the C++ `std_dev_ms`). -/
theorem c3_get_result_statistics (l : List ℚ) (ds : Nat) (h : l ≠ []) :
    (advanced_benchmarks.get_result l ds).iterations = l.length ∧
    (advanced_benchmarks.get_result l ds).min_time_ms ∈ l ∧
    (∀ x ∈ l, (advanced_benchmarks.get_result l ds).min_time_ms ≤ x) ∧
    (advanced_benchmarks.get_result l ds).max_time_ms ∈ l ∧
    (∀ x ∈ l, x ≤ (advanced_benchmarks.get_result l ds).max_time_ms) ∧
    (advanced_benchmarks.get_result l ds).avg_time_ms = l.sum / (l.length : ℚ) ∧
    (advanced_benchmarks.get_result l ds).variance_ms
      = (l.map (fun t => (t - l.sum / (l.length : ℚ)) ^ 2)).sum / (l.length : ℚ) ∧
    Real.sqrt ((advanced_benchmarks.get_result l ds).variance_ms : ℝ)
      = Real.sqrt
          (((l.map (fun t => (t - l.sum / (l.length : ℚ)) ^ 2)).sum / (l.length : ℚ) : ℚ) : ℝ) := by
  obtain ⟨m, rest, rfl⟩ : ∃ m rest, l = m :: rest := by
    cases l with
    | nil => exact absurd rfl h
    | cons m rest => exact ⟨m, rest, rfl⟩
  have hsum : (m :: rest).foldl (· + ·) 0 = (m :: rest).sum := by
    rw [foldl_add_eq_sum, zero_add]
  have hmin : (advanced_benchmarks.get_result (m :: rest) ds).min_time_ms
      = rest.foldl min m := rfl
  have hmax : (advanced_benchmarks.get_result (m :: rest) ds).max_time_ms
      = rest.foldl max m := rfl
  have havg : (advanced_benchmarks.get_result (m :: rest) ds).avg_time_ms
      = (m :: rest).sum / ((m :: rest).length : ℚ) := by
    show ((m :: rest).foldl (· + ·) 0) / ((m :: rest).length : ℚ) = _
    rw [hsum]
  have hvar : (advanced_benchmarks.get_result (m :: rest) ds).variance_ms
      = ((m :: rest).map
          (fun t => (t - (m :: rest).sum / ((m :: rest).length : ℚ)) ^ 2)).sum
          / ((m :: rest).length : ℚ) := by
    show ((m :: rest).foldl
        (fun acc t => acc +
          (t - ((m :: rest).foldl (· + ·) 0) / ((m :: rest).length : ℚ)) *
          (t - ((m :: rest).foldl (· + ·) 0) / ((m :: rest).length : ℚ))) 0)
        / ((m :: rest).length : ℚ) = _
    rw [foldl_add_map_eq_sum, zero_add, hsum]
    congr 1
    simp [pow_two]
  refine ⟨rfl, ?_, ?_, ?_, ?_, havg, hvar, by rw [hvar]⟩
  · rw [hmin]
    rcases foldl_min_mem rest m with he | he
    · rw [he]; exact List.mem_cons_self m rest
    · exact List.mem_cons_of_mem m he
  · intro x hx
    rw [hmin]
    rcases List.mem_cons.mp hx with he | he
    · rw [he]; exact foldl_min_le_init rest m
    · exact foldl_min_le_mem rest m x he
  · rw [hmax]
    rcases foldl_max_mem rest m with he | he
    · rw [he]; exact List.mem_cons_self m rest
    · exact List.mem_cons_of_mem m he
  · intro x hx
    rw [hmax]
    rcases List.mem_cons.mp hx with he | he
    · rw [he]; exact foldl_max_le_init rest m
    · exact foldl_max_ge_mem rest m x he

/-- Claim C3 witness: the trials `[10, 20, 30]` ms yield `min = 10`,
`max = 30`, `mean = 20`, variance `200/3` (so a standard deviation of
`sqrt(200/3)`), with the theorem supplying the lower-bound property of
the minimum. -/
theorem c3_witness :
    ([10, 20, 30] : List ℚ) ≠ [] ∧
      (advanced_benchmarks.get_result [10, 20, 30] 3).min_time_ms = 10 ∧
      (advanced_benchmarks.get_result [10, 20, 30] 3).max_time_ms = 30 ∧
      (advanced_benchmarks.get_result [10, 20, 30] 3).avg_time_ms = 20 ∧
      (advanced_benchmarks.get_result [10, 20, 30] 3).variance_ms = 200 / 3 ∧
      Real.sqrt ((advanced_benchmarks.get_result [10, 20, 30] 3).variance_ms : ℝ)
        = Real.sqrt (200 / 3 : ℝ) ∧
      ∀ x ∈ ([10, 20, 30] : List ℚ),
        (advanced_benchmarks.get_result [10, 20, 30] 3).min_time_ms ≤ x := by
  have hmin : (advanced_benchmarks.get_result [10, 20, 30] 3).min_time_ms = 10 := by
    norm_num [advanced_benchmarks.get_result, min_def]
  have hmax : (advanced_benchmarks.get_result [10, 20, 30] 3).max_time_ms = 30 := by
    norm_num [advanced_benchmarks.get_result, max_def]
  have havg : (advanced_benchmarks.get_result [10, 20, 30] 3).avg_time_ms = 20 := by
    norm_num [advanced_benchmarks.get_result]
  have hvar : (advanced_benchmarks.get_result [10, 20, 30] 3).variance_ms = 200 / 3 := by
    norm_num [advanced_benchmarks.get_result]
  refine ⟨by simp, hmin, hmax, havg, hvar, ?_, ?_⟩
  · rw [hvar]; norm_num
  · exact (c3_get_result_statistics [10, 20, 30] 3 (by simp)).2.2.1

theorem fmtFixed2_decomp (q : ℚ) :
    ∃ (X : String) (a b : Nat), a < 10 ∧ b < 10 ∧
      fmtFixed2 q = X ++ "." ++ ⟨[digitCh a, digitCh b]⟩ := by
  unfold fmtFixed2
  by_cases h : q < 0
  · refine ⟨"-" ++ natToString (roundFrac (100 * q.num.natAbs) q.den / 100),
      roundFrac (100 * q.num.natAbs) q.den / 10 % 10,
      roundFrac (100 * q.num.natAbs) q.den % 10,
      Nat.mod_lt _ (by decide), Nat.mod_lt _ (by decide), ?_⟩
    simp only [h, if_true]
    apply String.ext
    simp [List.append_assoc]
  · refine ⟨natToString (roundFrac (100 * q.num.natAbs) q.den / 100),
      roundFrac (100 * q.num.natAbs) q.den / 10 % 10,
      roundFrac (100 * q.num.natAbs) q.den % 10,
      Nat.mod_lt _ (by decide), Nat.mod_lt _ (by decide), ?_⟩
    simp only [h, if_false]

/-! ## Claims C1, C2 -/

/-- Claim C1, counterexample: for the `Person` instance
`("Alice", 30, 75000.0, "Engineering", true)` the generic serializer
renders the salary as `75000.00` (fixed, 2 decimals) while
`manual_serialize<Person>` renders it with default stream formatting as
`75000`, so the two outputs are not byte-for-byte equal. -/
theorem c1_person_serializers_differ :
    comprehensive_benchmark.reflection_serialize_Person
        ⟨"Alice", 30, 75000, "Engineering", true⟩
      = "\x7b\"name\":\"Alice\",\"age\":30,\"salary\":75000.00,\"department\":\"Engineering\",\"is_active\":true\x7d" ∧
    comprehensive_benchmark.manual_serialize_Person
        ⟨"Alice", 30, 75000, "Engineering", true⟩
      = "\x7b\"name\":\"Alice\",\"age\":30,\"salary\":75000,\"department\":\"Engineering\",\"is_active\":true\x7d" ∧
    comprehensive_benchmark.reflection_serialize_Person
        ⟨"Alice", 30, 75000, "Engineering", true⟩
      ≠ comprehensive_benchmark.manual_serialize_Person
          ⟨"Alice", 30, 75000, "Engineering", true⟩ :=
  ⟨by decide, by decide, by decide⟩

/-- Claim C1, amended: the generic and manual `Person` serializers emit
identical text up to the rendering of the one floating-point field, so
their outputs coincide exactly when the fixed-2 rendering of `salary`
equals its default rendering (e.g. at `10.25`), and differ otherwise
(e.g. at `75000.0`). -/
theorem c1_serializers_agree_iff_salary_format_agrees
    (p : comprehensive_benchmark.Person) :
    comprehensive_benchmark.reflection_serialize_Person p
        = comprehensive_benchmark.manual_serialize_Person p
      ↔ fmtFixed2 p.salary = fmtDefault p.salary := by
  constructor
  · intro h
    have hd := congrArg String.data h
    simp only [comprehensive_benchmark.reflection_serialize_Person,
      comprehensive_benchmark.manual_serialize_Person] at hd
    simp [List.append_assoc] at hd
    exact String.ext hd
  · intro h
    simp [comprehensive_benchmark.reflection_serialize_Person,
      comprehensive_benchmark.manual_serialize_Person, h]

/-- Claim C1 witness: at salary `10.25` both renderings agree and the
two serializers produce the same text. -/
theorem c1_witness :
    fmtFixed2 (mkRat 41 4) = fmtDefault (mkRat 41 4) ∧
      comprehensive_benchmark.reflection_serialize_Person
          ⟨"Bob", 28, mkRat 41 4, "IT", false⟩
        = comprehensive_benchmark.manual_serialize_Person
            ⟨"Bob", 28, mkRat 41 4, "IT", false⟩ :=
  ⟨by decide,
    (c1_serializers_agree_iff_salary_format_agrees
      ⟨"Bob", 28, mkRat 41 4, "IT", false⟩).mpr (by decide)⟩

/-- Claim C2, counterexample: `Order.total_amount` is printed with
default stream flags, so the order `(1, "A", [], 1.0, "d")` renders its
float field as `1`, not `1.00`; the substring `1.00` occurs nowhere in
the output. -/
theorem c2_order_total_amount_not_fixed2 :
    comprehensive_benchmark.reflection_serialize_Order ⟨1, "A", [], 1, "d"⟩
      = "\x7b\"order_id\":1,\"customer_name\":\"A\",\"total_amount\":1,\"order_date\":\"d\",\"items\":[]\x7d" ∧
    firstPos
        ("\x7b\"order_id\":1,\"customer_name\":\"A\",\"total_amount\":1,\"order_date\":\"d\",\"items\":[]\x7d").data
        ("1.00").data = none :=
  ⟨by decide, by decide⟩

/-- Claim C2, amended: the fields printed under
`std::fixed << std::setprecision(2)` — `Person.salary`,
`Product.price`, `Product.rating` in the generic serializers — always
carry exactly two digits after the decimal point (the two final
characters are digits preceded by `.`), but `Order.total_amount` and
the manual serializers' float fields use default formatting, which does
not pad (`1.0` renders as `1`). -/
theorem c2_fixed2_fields_two_decimals :
    (∀ q : ℚ,
      ((fmtFixed2 q).data.reverse.takeWhile (fun c => c != '.')).length = 2 ∧
      ∀ c ∈ (fmtFixed2 q).data.reverse.takeWhile (fun c => c != '.'), c.isDigit) ∧
    (∀ p : comprehensive_benchmark.Person, ∃ pre post,
      comprehensive_benchmark.reflection_serialize_Person p
        = pre ++ fmtFixed2 p.salary ++ post) ∧
    (∀ pr : comprehensive_benchmark.Product, ∃ pre mid,
      comprehensive_benchmark.reflection_serialize_Product pr
        = pre ++ fmtFixed2 pr.price ++ mid ++ fmtFixed2 pr.rating ++ "\x7d") ∧
    (∀ o : comprehensive_benchmark.Order, ∃ pre post,
      comprehensive_benchmark.reflection_serialize_Order o
        = pre ++ fmtDefault o.total_amount ++ post) ∧
    (∀ p : comprehensive_benchmark.Person, ∃ pre post,
      comprehensive_benchmark.manual_serialize_Person p
        = pre ++ fmtDefault p.salary ++ post) ∧
    fmtDefault 1 = "1" := by
  refine ⟨?_, ?_, ?_, ?_, ?_, by decide⟩
  · intro q
    obtain ⟨X, a, b, ha, hb, hq⟩ := fmtFixed2_decomp q
    rw [hq, rev_takeWhile_two X _ _ (digitCh_bne_dot a) (digitCh_bne_dot b)]
    refine ⟨rfl, ?_⟩
    intro c hc
    rcases List.mem_cons.mp hc with he | he
    · rw [he]; exact digitCh_isDigit b hb
    · rw [List.mem_singleton.mp he]; exact digitCh_isDigit a ha
  · intro p
    refine ⟨"\x7b\"name\":\"" ++ p.name ++ "\"," ++ "\"age\":" ++
        intToString p.age ++ "," ++ "\"salary\":",
      "," ++ "\"department\":\"" ++ p.department ++ "\"," ++ "\"is_active\":" ++
        (if p.is_active then "true" else "false") ++ "\x7d", ?_⟩
    unfold comprehensive_benchmark.reflection_serialize_Person
    apply String.ext
    simp [List.append_assoc]
  · intro pr
    refine ⟨"\x7b\"name\":\"" ++ pr.name ++ "\"," ++ "\"price\":",
      "," ++ "\"quantity\":" ++ intToString pr.quantity ++ "," ++
        "\"category\":\"" ++ pr.category ++ "\"," ++ "\"rating\":", ?_⟩
    unfold comprehensive_benchmark.reflection_serialize_Product
    apply String.ext
    simp [List.append_assoc]
  · intro o
    refine ⟨"\x7b\"order_id\":" ++ intToString o.order_id ++ "," ++
        "\"customer_name\":\"" ++ o.customer_name ++ "\"," ++ "\"total_amount\":",
      "," ++ "\"order_date\":\"" ++ o.order_date ++ "\"," ++ "\"items\":[" ++
        comprehensive_benchmark.order_items_loop o.items ++ "]\x7d", ?_⟩
    unfold comprehensive_benchmark.reflection_serialize_Order
    apply String.ext
    simp [List.append_assoc]
  · intro p
    refine ⟨"\x7b\"name\":\"" ++ p.name ++ "\"," ++ "\"age\":" ++
        intToString p.age ++ "," ++ "\"salary\":",
      "," ++ "\"department\":\"" ++ p.department ++ "\"," ++ "\"is_active\":" ++
        (if p.is_active then "true" else "false") ++ "\x7d", ?_⟩
    unfold comprehensive_benchmark.manual_serialize_Person
    apply String.ext
    simp [List.append_assoc]

/-! ## Claims C6, C7 -/

/-- Claim C6, confirmed: the element loops of the sequence-valued
fields comma-join their elements — zero elements contribute nothing
(the brackets close immediately as `[]`), one element has no separator,
and `N` elements have exactly `N - 1` one-character `,` separators
between the serialized elements; this holds both for `Order.items` and
for `Company.employees`. -/
theorem c6_sequence_separators :
    (∀ items : List comprehensive_benchmark.Product,
      comprehensive_benchmark.order_items_loop items
        = joinComma (items.map comprehensive_benchmark.reflection_serialize_Product)) ∧
    (∀ o : comprehensive_benchmark.Order, o.items = [] →
      ∃ pre, comprehensive_benchmark.reflection_serialize_Order o = pre ++ "[]\x7d") ∧
    (∀ p : comprehensive_benchmark.Product,
      comprehensive_benchmark.order_items_loop [p]
        = comprehensive_benchmark.reflection_serialize_Product p) ∧
    (∀ items : List comprehensive_benchmark.Product, items ≠ [] →
      (comprehensive_benchmark.order_items_loop items).length
        = ((items.map comprehensive_benchmark.reflection_serialize_Product).map
            String.length).sum + (items.length - 1)) ∧
    (∀ employees : List working_reflection_demo.Person,
      working_reflection_demo.company_employees_loop employees
        = joinComma (employees.map working_reflection_demo.serialize_Person)) := by
  have hloop : ∀ items : List comprehensive_benchmark.Product,
      comprehensive_benchmark.order_items_loop items
        = joinComma (items.map comprehensive_benchmark.reflection_serialize_Product) := by
    intro items
    unfold comprehensive_benchmark.order_items_loop
    exact serialize_loop_eq_joinComma _ items
  refine ⟨hloop, ?_, ?_, ?_, ?_⟩
  · intro o ho
    refine ⟨"\x7b\"order_id\":" ++ intToString o.order_id ++ "," ++
      "\"customer_name\":\"" ++ o.customer_name ++ "\"," ++ "\"total_amount\":" ++
      fmtDefault o.total_amount ++ "," ++ "\"order_date\":\"" ++ o.order_date ++
      "\"," ++ "\"items\":", ?_⟩
    unfold comprehensive_benchmark.reflection_serialize_Order
    rw [ho]
    apply String.ext
    simp [comprehensive_benchmark.order_items_loop, List.append_assoc]
  · intro p
    rw [hloop, List.map_cons, List.map_nil, joinComma]
  · intro items hne
    rw [hloop,
      joinComma_length _ (by simpa using hne), List.length_map]
  · intro employees
    unfold working_reflection_demo.company_employees_loop
    exact serialize_loop_eq_joinComma _ employees

/-- Claim C6 witness: an empty `items` sequence yields adjacent
brackets, and two items are joined with exactly one separator
character. -/
theorem c6_witness :
    (∃ pre, comprehensive_benchmark.reflection_serialize_Order
        ⟨1, "A", [], 2, "d"⟩ = pre ++ "[]\x7d") ∧
      (comprehensive_benchmark.order_items_loop
          [⟨"X", 1, 2, "C", 3⟩, ⟨"Y", 4, 5, "D", 6⟩]).length
        = (([⟨"X", 1, 2, "C", 3⟩, (⟨"Y", 4, 5, "D", 6⟩ : comprehensive_benchmark.Product)].map
            comprehensive_benchmark.reflection_serialize_Product).map
              String.length).sum + (2 - 1) :=
  ⟨c6_sequence_separators.2.1 ⟨1, "A", [], 2, "d"⟩ rfl,
    c6_sequence_separators.2.2.2.1 [⟨"X", 1, 2, "C", 3⟩, ⟨"Y", 4, 5, "D", 6⟩] (by simp)⟩

/-- Claim C7, counterexample: serializing the order
`(1, "A", [], 2.0, "d")` emits the fields in the order `order_id`,
`customer_name`, `total_amount`, `order_date`, `items`, which is not
the registration order `get_member_names<Order>` (there, `items` is
third); the output equals the object built in the emitted order and
differs from the object built in the registered order. -/
theorem c7_order_field_order_mismatch :
    comprehensive_benchmark.reflection_serialize_Order ⟨1, "A", [], 2, "d"⟩
      = mkObject [("order_id", "1"), ("customer_name", quoted "A"),
          ("total_amount", "2"), ("order_date", quoted "d"), ("items", "[]")] ∧
    comprehensive_benchmark.reflection_serialize_Order ⟨1, "A", [], 2, "d"⟩
      ≠ mkObject [("order_id", "1"), ("customer_name", quoted "A"),
          ("items", "[]"), ("total_amount", "2"), ("order_date", quoted "d")] ∧
    comprehensive_benchmark.get_member_names_Order
      = ["order_id", "customer_name", "items", "total_amount", "order_date"] :=
  ⟨by decide, by decide, by decide⟩

/-- Claim C7, amended: every serializer emits a brace-wrapped,
comma-separated `name:value` object; for `Person` and `Product` the
field order equals the registration order of `get_member_names`, but
`Order` is emitted as `order_id`, `customer_name`, `total_amount`,
`order_date`, `items`, which differs from its registration order
(`items` registered third, emitted last). -/
theorem c7_field_order_objects
    (p : comprehensive_benchmark.Person) (pr : comprehensive_benchmark.Product)
    (o : comprehensive_benchmark.Order) :
    comprehensive_benchmark.reflection_serialize_Person p
      = mkObject [("name", quoted p.name), ("age", intToString p.age),
          ("salary", fmtFixed2 p.salary), ("department", quoted p.department),
          ("is_active", if p.is_active then "true" else "false")] ∧
    comprehensive_benchmark.reflection_serialize_Product pr
      = mkObject [("name", quoted pr.name), ("price", fmtFixed2 pr.price),
          ("quantity", intToString pr.quantity), ("category", quoted pr.category),
          ("rating", fmtFixed2 pr.rating)] ∧
    comprehensive_benchmark.reflection_serialize_Order o
      = mkObject [("order_id", intToString o.order_id),
          ("customer_name", quoted o.customer_name),
          ("total_amount", fmtDefault o.total_amount),
          ("order_date", quoted o.order_date),
          ("items", "[" ++ comprehensive_benchmark.order_items_loop o.items ++ "]")] ∧
    ["name", "age", "salary", "department", "is_active"]
      = comprehensive_benchmark.get_member_names_Person ∧
    ["name", "price", "quantity", "category", "rating"]
      = comprehensive_benchmark.get_member_names_Product ∧
    ["order_id", "customer_name", "total_amount", "order_date", "items"]
      ≠ comprehensive_benchmark.get_member_names_Order := by
  refine ⟨?_, ?_, ?_, by decide, by decide, by decide⟩
  · apply String.ext
    simp [comprehensive_benchmark.reflection_serialize_Person, mkObject, joinComma,
      quoted, List.append_assoc]
  · apply String.ext
    simp [comprehensive_benchmark.reflection_serialize_Product, mkObject, joinComma,
      quoted, List.append_assoc]
  · apply String.ext
    simp [comprehensive_benchmark.reflection_serialize_Order, mkObject, joinComma,
      quoted, List.append_assoc]
